import Mathlib

/-!
Shallow embedding of the precision-landing repository (config.py,
pid_controller.py, state_machine.py, msp_protocol.py, main.py).
Python floats are modelled as exact rationals; Python `None` as `Option`;
bytes as natural numbers below 256; wall-clock time is passed explicitly.
-/

namespace Homing

/-! ## config.py constants (§ Hız Limitleri / Güvenlik Parametreleri) -/

def MAX_DESCENT_SPEED : ℚ := 1/4          -- 0.25
def MIN_DESCENT_SPEED : ℚ := 2/25         -- 0.08
def PRECISION_START_HEIGHT : ℚ := 15      -- 15.0
def LANDING_THRESHOLD_HEIGHT : ℚ := 4/5   -- 0.8

/-! ## pid_controller.py -/

/-- `PIDController._clamp(value, min_val, max_val)`:
`max(min_val, min(max_val, value))`. -/
def clamp (value min_val max_val : ℚ) : ℚ :=
  max min_val (min max_val value)

/-- The full mutable state of a `PIDController` instance: configuration
fields from `__init__` plus the internal accumulators. -/
structure PIDState where
  kp : ℚ
  ki : ℚ
  kd : ℚ
  output_min : ℚ
  output_max : ℚ
  integral_max : ℚ
  sample_time : Option ℚ
  reverse : Bool
  integral : ℚ
  prev_error : ℚ
  prev_measurement : Option ℚ
  last_time : Option ℚ
  first_run : Bool
  deriving DecidableEq

/-- Python truthiness of an optional float: `None` and `0.0` are falsy. -/
def optTruthy (x : Option ℚ) : Bool :=
  match x with
  | none => false
  | some v => v ≠ 0

/-- `PIDController.__init__`: `integral_max` defaults to `abs(output_max)`
when the argument is falsy (`None` or `0`). -/
def mkPID (kp ki kd output_min output_max : ℚ)
    (integral_max : Option ℚ) (sample_time : Option ℚ)
    (reverse : Bool) : PIDState :=
  { kp := kp, ki := ki, kd := kd,
    output_min := output_min, output_max := output_max,
    integral_max := if optTruthy integral_max
                    then integral_max.getD 0 else |output_max|,
    sample_time := sample_time,
    reverse := reverse,
    integral := 0,
    prev_error := 0,
    prev_measurement := none,
    last_time := none,
    first_run := true }

/-- The time delta used by `compute`: the sample time (default 50 ms) on
the first call, otherwise the elapsed wall-clock time floored at 1 ms. -/
def pid_dt (s : PIDState) (current_time : ℚ) : ℚ :=
  match s.last_time with
  | none => if optTruthy s.sample_time then s.sample_time.getD 0 else 1/20
  | some lt =>
      let d := current_time - lt
      if d ≤ 0 then 1/1000 else d

/-- The value of `_first_run` as read by the derivative branch of
`compute`: forced to `true` when there is no previous timestamp. -/
def pid_first_run (s : PIDState) : Bool :=
  match s.last_time with
  | none => true
  | some _ => s.first_run

/-- `PIDController.compute(error, measurement)`, with the wall clock passed
in as `current_time`.  Returns the output together with the updated state. -/
def compute (s : PIDState) (error : ℚ) (measurement : Option ℚ)
    (current_time : ℚ) : ℚ × PIDState :=
  -- dt and the first-run flag as read inside this call
  let dt : ℚ := pid_dt s current_time
  let firstRunFlag : Bool := pid_first_run s
  -- direction correction
  let e : ℚ := if s.reverse then -error else error
  -- P term
  let p_term := s.kp * e
  -- I term: accumulate and anti-windup clamp only when ki ≠ 0
  let integral' :=
    if s.ki ≠ 0 then
      clamp (s.integral + e * dt) (-s.integral_max) s.integral_max
    else s.integral
  let i_term := s.ki * integral'
  -- D term: skipped on first run or when kd = 0
  let d_term : ℚ :=
    if s.kd ≠ 0 ∧ firstRunFlag = false then
      match measurement, s.prev_measurement with
      | some m, some pm => s.kd * (-(m - pm) / dt)
      | _, _ => s.kd * ((e - s.prev_error) / dt)
    else 0
  let output := clamp (p_term + i_term + d_term) s.output_min s.output_max
  (output,
   { s with
     integral := integral',
     prev_error := e,
     prev_measurement := match measurement with
                         | some m => some m
                         | none => s.prev_measurement,
     last_time := some current_time,
     first_run := false })

/-- `PIDController.reset()`. -/
def reset (s : PIDState) : PIDState :=
  { s with
    integral := 0,
    prev_error := 0,
    prev_measurement := none,
    last_time := none,
    first_run := true }

/-- `PIDController.set_output_limits(output_min, output_max)`:
rejected (state unchanged) when `output_min >= output_max`. -/
def set_output_limits (s : PIDState) (omin omax : ℚ) : PIDState :=
  if omin ≥ omax then s
  else { s with output_min := omin, output_max := omax }

/-- `PIDController.set_sample_time(sample_time)`:
rejected (state unchanged) when `sample_time <= 0`. -/
def set_sample_time (s : PIDState) (st : ℚ) : PIDState :=
  if st ≤ 0 then s
  else { s with sample_time := some st }

/-- One compute step viewed as a state transformer, for reasoning about
sequences of `compute` calls.  An input is `(error, measurement, time)`. -/
def computeStep (s : PIDState) (inp : ℚ × Option ℚ × ℚ) : PIDState :=
  (compute s inp.1 inp.2.1 inp.2.2).2

/-- Run a whole history of `compute` calls. -/
def runPID (s : PIDState) (inputs : List (ℚ × Option ℚ × ℚ)) : PIDState :=
  inputs.foldl computeStep s

/-! ## state_machine.py -/

/-- `SystemState` enumeration. -/
inductive SystemState where
  | IDLE
  | SEARCHING
  | TRACKING
  | APPROACH
  | LANDING
  | LOST
  | COMPLETE
  deriving DecidableEq

/-- The full mutable state of a `StateMachine` instance (the state-change
callback and logger are not modelled: they do not affect the fields). -/
structure FSM where
  detection_time : ℚ
  lost_timeout : ℚ
  start_height : ℚ
  landing_height : ℚ
  state : SystemState
  prev_state : SystemState
  laser_first_seen : ℚ
  laser_last_seen : ℚ
  state_enter_time : ℚ
  laser_position : Option (ℤ × ℤ)
  altitude : ℚ
  deriving DecidableEq

/-- `StateMachine.__init__`. -/
def mkFSM (detection_time lost_timeout start_height landing_height : ℚ) : FSM :=
  { detection_time := detection_time,
    lost_timeout := lost_timeout,
    start_height := start_height,
    landing_height := landing_height,
    state := SystemState.IDLE,
    prev_state := SystemState.IDLE,
    laser_first_seen := 0,
    laser_last_seen := 0,
    state_enter_time := 0,
    laser_position := none,
    altitude := 0 }

/-- `StateMachine._change_state(new_state)`: early return when the state is
unchanged; otherwise records previous state and entry time. -/
def change_state (s : FSM) (new_state : SystemState) (now : ℚ) : FSM :=
  if new_state = s.state then s
  else { s with prev_state := s.state, state := new_state,
                state_enter_time := now }

/-- `StateMachine._reset_timers()`. -/
def reset_timers (s : FSM) : FSM :=
  { s with laser_first_seen := 0, laser_last_seen := 0,
           laser_position := none }

/-- `StateMachine.enable()`: only acts from `IDLE`. -/
def enable (s : FSM) (now : ℚ) : FSM :=
  if s.state = SystemState.IDLE then
    change_state (reset_timers s) SystemState.SEARCHING now
  else s

/-- `StateMachine.disable()`: from any state back to `IDLE`. -/
def disable (s : FSM) (now : ℚ) : FSM :=
  change_state (reset_timers s) SystemState.IDLE now

/-- `StateMachine._process_state(laser_detected, now)`.  Note the `LANDING`
branch runs two consecutive `if` statements (not `elif`), so a touchdown
transition to `COMPLETE` can be followed by a lost-laser transition to
`LOST` within the same call. -/
def process_state (s : FSM) (laser_detected : Bool) (now : ℚ) : FSM :=
  match s.state with
  | SystemState.IDLE => s
  | SystemState.SEARCHING =>
      if laser_detected then change_state s SystemState.TRACKING now else s
  | SystemState.TRACKING =>
      if ¬ laser_detected then
        change_state (reset_timers s) SystemState.SEARCHING now
      else if now - s.laser_first_seen ≥ s.detection_time then
        change_state s SystemState.APPROACH now
      else s
  | SystemState.APPROACH =>
      if laser_detected then
        if s.altitude ≤ s.landing_height then
          change_state s SystemState.LANDING now
        else s
      else
        if now - s.laser_last_seen ≥ s.lost_timeout then
          change_state s SystemState.LOST now
        else s
  | SystemState.LANDING =>
      let s1 := if s.altitude ≤ 1/10 then
                  change_state s SystemState.COMPLETE now
                else s
      if ¬ laser_detected ∧ now - s1.laser_last_seen ≥ s1.lost_timeout then
        change_state s1 SystemState.LOST now
      else s1
  | SystemState.LOST =>
      if laser_detected then
        change_state { s with laser_first_seen := now } SystemState.TRACKING now
      else s
  | SystemState.COMPLETE => s

/-- `StateMachine.update(laser_detected, laser_position, altitude)` with the
wall clock passed in as `now`. -/
def update (s : FSM) (laser_detected : Bool)
    (laser_position : Option (ℤ × ℤ)) (altitude : ℚ) (now : ℚ) : FSM :=
  let s1 := { s with altitude := altitude }
  let s2 :=
    if laser_detected then
      let sa := { s1 with laser_position := laser_position,
                          laser_last_seen := now }
      if sa.laser_first_seen = 0 then { sa with laser_first_seen := now }
      else sa
    else { s1 with laser_position := none }
  process_state s2 laser_detected now

/-! ## main.py control loop, throttle scheduling (lines 234-261) -/

/-- The throttle command computed inside `control_loop` when the state is
`TRACKING` or `APPROACH` and the laser is detected (main.py lines 253-261). -/
def throttle_schedule (current_alt : ℚ) : ℚ :=
  if current_alt > PRECISION_START_HEIGHT then 0
  else if current_alt > LANDING_THRESHOLD_HEIGHT then
    let descent_factor := current_alt / PRECISION_START_HEIGHT;
    -MAX_DESCENT_SPEED * (1 - descent_factor * (1/2))
  else -MIN_DESCENT_SPEED

/-- `throttle_output` as assigned in one `control_loop` iteration: zero
unless the state is `TRACKING`/`APPROACH` with the laser found. -/
def control_throttle (current_state : SystemState) (laser_found : Bool)
    (current_alt : ℚ) : ℚ :=
  if (current_state = SystemState.TRACKING ∨
      current_state = SystemState.APPROACH) ∧ laser_found then
    throttle_schedule current_alt
  else 0

/-! ## msp_protocol.py -/

def MSP_V2_START : ℕ := 0x24
def MSP_V2_IDENT : ℕ := 0x58
def MSP_V2_REQUEST : ℕ := 0x3C
def MSP_SET_RAW_RC : ℕ := 200
def RC_MIN : ℤ := 1000
def RC_MAX : ℤ := 2000
def RC_MID : ℤ := 1500

/-- One byte-step of `_calculate_crc8_dvb_s2`: xor in the byte, then eight
shift-and-conditionally-xor rounds, each masked to 8 bits. -/
def crc8_byte (crc byte : ℕ) : ℕ :=
  let rec rounds : ℕ → ℕ → ℕ
    | c, 0 => c
    | c, n + 1 =>
        rounds (if c &&& 0x80 ≠ 0 then ((c <<< 1) ^^^ 0xD5) &&& 0xFF
                else (c <<< 1) &&& 0xFF) n
  rounds (crc ^^^ byte) 8

/-- `MSPProtocol._calculate_crc8_dvb_s2(data)`: CRC-8, polynomial 0xD5
(DVB-S2 variant), initial value 0. -/
def crc8_dvb_s2 (data : List ℕ) : ℕ :=
  data.foldl crc8_byte 0

/-- `struct.pack('<H', n)`: two little-endian bytes of an unsigned 16-bit
value. -/
def pack16 (n : ℕ) : List ℕ :=
  [n % 256, n / 256 % 256]

/-- The bytes the checksum of `_build_msp_v2_frame` is computed over:
`flag + function + size + payload`. -/
def frame_crc_data (function : ℕ) (payload : List ℕ) : List ℕ :=
  [0x00] ++ pack16 function ++ pack16 payload.length ++ payload

/-- `MSPProtocol._build_msp_v2_frame(function, payload)`:
`header + crc_data + [crc]`. -/
def build_msp_v2_frame (function : ℕ) (payload : List ℕ) : List ℕ :=
  [MSP_V2_START, MSP_V2_IDENT, MSP_V2_REQUEST] ++
    frame_crc_data function payload ++
    [crc8_dvb_s2 (frame_crc_data function payload)]

/-- The `clamp` helper local to `send_rc_override`:
`max(RC_MIN, min(RC_MAX, int(val)))`. -/
def clampRC (val : ℤ) : ℤ :=
  max RC_MIN (min RC_MAX val)

/-- The 18-entry channel list built by `send_rc_override`: the eight
supplied values clamped, then padded with `RC_MID` up to 18 entries. -/
def rc_channels (roll pitch throttle yaw aux1 aux2 aux3 aux4 : ℤ) : List ℤ :=
  [clampRC roll, clampRC pitch, clampRC throttle, clampRC yaw,
   clampRC aux1, clampRC aux2, clampRC aux3, clampRC aux4] ++
    List.replicate 10 RC_MID

/-- `struct.pack('<H', v)` on a channel value: two little-endian bytes. -/
def packChan (v : ℤ) : List ℤ :=
  [v % 256, v / 256]

/-- The 36-byte payload of `send_rc_override`
(`struct.pack('<' + 'H'*18, *channels)`). -/
def rc_payload (roll pitch throttle yaw aux1 aux2 aux3 aux4 : ℤ) : List ℤ :=
  ((rc_channels roll pitch throttle yaw aux1 aux2 aux3 aux4).map packChan).flatten

/-- Decoding a little-endian u16 byte stream back into channel values
(as `request_rc_channels` does with `struct.unpack`). -/
def decode_channels : List ℤ → List ℤ
  | lo :: hi :: rest => (lo + 256 * hi) :: decode_channels rest
  | _ => []

/-! ## Helper lemmas -/

theorem computeStep_kp (s : PIDState) (inp : ℚ × Option ℚ × ℚ) :
    (computeStep s inp).kp = s.kp := rfl

theorem computeStep_ki (s : PIDState) (inp : ℚ × Option ℚ × ℚ) :
    (computeStep s inp).ki = s.ki := rfl

theorem computeStep_integral_max (s : PIDState) (inp : ℚ × Option ℚ × ℚ) :
    (computeStep s inp).integral_max = s.integral_max := rfl

theorem reset_computeStep (s : PIDState) (inp : ℚ × Option ℚ × ℚ) :
    reset (computeStep s inp) = reset s := rfl

theorem reset_runPID (inputs : List (ℚ × Option ℚ × ℚ)) (s : PIDState) :
    reset (runPID s inputs) = reset s := by
  induction inputs generalizing s with
  | nil => rfl
  | cons i is ih =>
      show reset (runPID (computeStep s i) is) = reset s
      rw [ih, reset_computeStep]

theorem reset_mkPID (kp ki kd omin omax : ℚ) (imax stime : Option ℚ)
    (rev : Bool) :
    reset (mkPID kp ki kd omin omax imax stime rev) =
      mkPID kp ki kd omin omax imax stime rev := rfl

/-! ## Claim theorems -/

/-- C5: for every PID controller state with `Ki = 0`, `Kd = 0` and the
reverse flag false, `compute(e)` returns exactly
`clamp(Kp*e, output_min, output_max)`, whatever the internal history. -/
theorem C5_pure_proportional (s : PIDState) (e : ℚ) (m : Option ℚ) (t : ℚ)
    (hki : s.ki = 0) (hkd : s.kd = 0) (hrev : s.reverse = false) :
    (compute s e m t).1 = clamp (s.kp * e) s.output_min s.output_max := by
  unfold compute
  simp only [hki, hkd, hrev, ne_eq, not_true_eq_false, if_false,
    Bool.false_eq_true, false_and, zero_mul, add_zero]

/-- Witness for C5 at a concrete controller: `Kp = 2`, limits `[-1, 1]`,
error `3`, so the output is `clamp(6, -1, 1) = 1`. -/
theorem C5_pure_proportional_witness :
    (compute (mkPID 2 0 0 (-1) 1 none none false) 3 none 0).1 = 1 := by
  have h := C5_pure_proportional (mkPID 2 0 0 (-1) 1 none none false)
    3 none 0 rfl rfl rfl
  rw [h]
  norm_num [mkPID, clamp]

/-- C6: after any history of `compute` calls, `reset()` followed by
`compute(e)` yields the same output as a freshly constructed controller
with the same configuration receiving `compute(e)` as its first call. -/
theorem C6_reset_idempotence (kp ki kd omin omax : ℚ)
    (imax stime : Option ℚ) (rev : Bool)
    (inputs : List (ℚ × Option ℚ × ℚ)) (e : ℚ) (m : Option ℚ) (t : ℚ) :
    (compute (reset (runPID (mkPID kp ki kd omin omax imax stime rev) inputs))
        e m t).1 =
      (compute (mkPID kp ki kd omin omax imax stime rev) e m t).1 := by
  rw [reset_runPID, reset_mkPID]

/-- C9: `set_output_limits` rejects `output_min >= output_max` leaving the
state unchanged, and applies valid limits; `set_sample_time` rejects a
non-positive sample time leaving the state unchanged, and applies a
positive one.  All other fields are untouched in every case. -/
theorem C9_setter_validation (s : PIDState) (omin omax st : ℚ) :
    (omin ≥ omax → set_output_limits s omin omax = s) ∧
    (omin < omax → set_output_limits s omin omax =
        { s with output_min := omin, output_max := omax }) ∧
    (st ≤ 0 → set_sample_time s st = s) ∧
    (0 < st → set_sample_time s st = { s with sample_time := some st }) := by
  refine ⟨fun h => ?_, fun h => ?_, fun h => ?_, fun h => ?_⟩
  · rw [set_output_limits, if_pos h]
  · rw [set_output_limits, if_neg (not_le.mpr h)]
  · rw [set_sample_time, if_pos h]
  · rw [set_sample_time, if_neg (not_le.mpr h)]

/-- Witness for C9 at a concrete controller: `set_output_limits 2 1` is
rejected (state unchanged) and `set_sample_time 0.01` is applied. -/
theorem C9_setter_validation_witness :
    set_output_limits (mkPID 1 0 0 (-1) 1 none none false) 2 1 =
      mkPID 1 0 0 (-1) 1 none none false ∧
    set_sample_time (mkPID 1 0 0 (-1) 1 none none false) (1/100) =
      { mkPID 1 0 0 (-1) 1 none none false with sample_time := some (1/100) } :=
  ⟨(C9_setter_validation (mkPID 1 0 0 (-1) 1 none none false) 2 1 (1/100)).1
      (by norm_num),
   (C9_setter_validation (mkPID 1 0 0 (-1) 1 none none false) 2 1
      (1/100)).2.2.2 (by norm_num)⟩

/-- C10: `enable()` from any state other than `IDLE` is a no-op on the
whole machine state; from `IDLE` it resets the phase timers and the stored
beacon position and transitions to `SEARCHING`. -/
theorem C10_enable_frame (s : FSM) (now : ℚ) :
    (s.state ≠ SystemState.IDLE → enable s now = s) ∧
    (s.state = SystemState.IDLE →
      (enable s now).state = SystemState.SEARCHING ∧
      (enable s now).laser_first_seen = 0 ∧
      (enable s now).laser_last_seen = 0 ∧
      (enable s now).laser_position = none) := by
  constructor
  · intro h
    rw [enable, if_neg h]
  · intro h
    have hne : ¬ (SystemState.SEARCHING = s.state) := by
      rw [h]; intro hc; exact SystemState.noConfusion hc
    simp [enable, if_pos h, change_state, reset_timers, hne]

/-- Witness for C10: a machine in `TRACKING` is unchanged by `enable`,
and a fresh machine (in `IDLE`) moves to `SEARCHING` with cleared timers. -/
theorem C10_enable_frame_witness :
    enable { mkFSM 2 3 15 (4/5) with state := SystemState.TRACKING } 7 =
      { mkFSM 2 3 15 (4/5) with state := SystemState.TRACKING } ∧
    (enable (mkFSM 2 3 15 (4/5)) 7).state = SystemState.SEARCHING :=
  ⟨(C10_enable_frame { mkFSM 2 3 15 (4/5) with
        state := SystemState.TRACKING } 7).1 (by decide),
   ((C10_enable_frame (mkFSM 2 3 15 (4/5)) 7).2 rfl).1⟩

/-- C4: from `APPROACH` with the beacon undetected, an update whose time
has reached `lost_timeout` past the last-seen timestamp moves to `LOST`
(and one short of the timeout leaves state and last-seen timestamp
untouched, so a sequence of undetected updates eventually trips it); from
`LOST`, a detected update moves to `TRACKING` — never directly to
`APPROACH` — restarting the first-seen timer at the current time. -/
theorem C4_approach_lost_tracking (s : FSM) (pos : Option (ℤ × ℤ))
    (alt now : ℚ) :
    (s.state = SystemState.APPROACH →
      s.lost_timeout ≤ now - s.laser_last_seen →
      (update s false pos alt now).state = SystemState.LOST) ∧
    (s.state = SystemState.APPROACH →
      now - s.laser_last_seen < s.lost_timeout →
      (update s false pos alt now).state = SystemState.APPROACH ∧
      (update s false pos alt now).laser_last_seen = s.laser_last_seen) ∧
    (s.state = SystemState.LOST →
      (update s true pos alt now).state = SystemState.TRACKING ∧
      (update s true pos alt now).state ≠ SystemState.APPROACH ∧
      (update s true pos alt now).laser_first_seen = now) := by
  refine ⟨fun h hto => ?_, fun h hto => ?_, fun h => ?_⟩
  · simp [update, process_state, change_state, h, ge_iff_le, hto]
  · simp [update, process_state, change_state, h, ge_iff_le,
      not_le.mpr hto]
  · by_cases hz : s.laser_first_seen = 0 <;>
      simp [update, process_state, change_state, h, hz]

/-- Witness for C4: a concrete machine in `APPROACH` with the beacon last
seen at time 0 and `lost_timeout = 3` moves to `LOST` at time 10, and a
concrete machine in `LOST` recovers to `TRACKING` with its first-seen
timer restarted. -/
theorem C4_approach_lost_tracking_witness :
    (update { mkFSM 2 3 15 (4/5) with state := SystemState.APPROACH }
        false none 10 10).state = SystemState.LOST ∧
    (update { mkFSM 2 3 15 (4/5) with state := SystemState.LOST }
        true (some (320, 240)) 10 10).state = SystemState.TRACKING ∧
    (update { mkFSM 2 3 15 (4/5) with state := SystemState.LOST }
        true (some (320, 240)) 10 10).laser_first_seen = 10 := by
  refine ⟨?_, ?_, ?_⟩
  · exact (C4_approach_lost_tracking
      { mkFSM 2 3 15 (4/5) with state := SystemState.APPROACH }
      none 10 10).1 rfl (by norm_num [mkFSM])
  · exact ((C4_approach_lost_tracking
      { mkFSM 2 3 15 (4/5) with state := SystemState.LOST }
      (some (320, 240)) 10 10).2.2 rfl).1
  · exact ((C4_approach_lost_tracking
      { mkFSM 2 3 15 (4/5) with state := SystemState.LOST }
      (some (320, 240)) 10 10).2.2 rfl).2.2

theorem decode_encode (l : List ℤ) :
    decode_channels ((l.map packChan).flatten) = l := by
  induction l with
  | nil => rfl
  | cons v rest ih =>
      simp [packChan, decode_channels, ih, Int.emod_add_ediv]

theorem clampRC_bounds (v : ℤ) : RC_MIN ≤ clampRC v ∧ clampRC v ≤ RC_MAX :=
  ⟨le_max_left _ _,
   max_le (by norm_num [RC_MIN, RC_MAX]) (min_le_left _ _)⟩

theorem packChan_flatten_length (l : List ℤ) :
    ((l.map packChan).flatten).length = 2 * l.length := by
  induction l with
  | nil => rfl
  | cons v rest ih => simp [packChan, ih]; ring

/-- C7: `send_rc_override` clamps each of the eight supplied channel
values to `[1000, 2000]`, serializes exactly 18 little-endian u16 slots
(36 bytes) with trailing channels neutral at 1500, decoding the payload
reproduces the 18 clamped values, and the spec's concrete vector
`[1000, 1500, 2000, 1500, 1500×14]` round-trips unchanged. -/
theorem C7_rc_override_roundtrip (roll pitch throttle yaw a1 a2 a3 a4 : ℤ) :
    decode_channels (rc_payload roll pitch throttle yaw a1 a2 a3 a4) =
      rc_channels roll pitch throttle yaw a1 a2 a3 a4 ∧
    (rc_channels roll pitch throttle yaw a1 a2 a3 a4).length = 18 ∧
    (rc_payload roll pitch throttle yaw a1 a2 a3 a4).length = 36 ∧
    (∀ v ∈ rc_channels roll pitch throttle yaw a1 a2 a3 a4,
      RC_MIN ≤ v ∧ v ≤ RC_MAX) ∧
    (rc_channels roll pitch throttle yaw a1 a2 a3 a4).take 8 =
      [clampRC roll, clampRC pitch, clampRC throttle, clampRC yaw,
       clampRC a1, clampRC a2, clampRC a3, clampRC a4] ∧
    (rc_channels roll pitch throttle yaw a1 a2 a3 a4).drop 8 =
      List.replicate 10 RC_MID ∧
    decode_channels (rc_payload 1000 1500 2000 1500 1500 1500 1500 1500) =
      [1000, 1500, 2000, 1500] ++ List.replicate 14 1500 := by
  refine ⟨decode_encode _, by simp [rc_channels], ?_, ?_, rfl, rfl, ?_⟩
  · rw [rc_payload, packChan_flatten_length]
    simp [rc_channels]
  · intro v hv
    simp only [rc_channels, List.mem_append, List.mem_cons,
      List.not_mem_nil, or_false, List.mem_replicate] at hv
    rcases hv with ((rfl | rfl | rfl | rfl | rfl | rfl | rfl | rfl) | ⟨-, rfl⟩)
    any_goals exact clampRC_bounds _
    norm_num [RC_MID, RC_MIN, RC_MAX]
  · rw [show decode_channels (rc_payload 1000 1500 2000 1500 1500 1500 1500 1500)
        = rc_channels 1000 1500 2000 1500 1500 1500 1500 1500
      from decode_encode _]
    decide

/-- Witness for C7's bounds conjunct at a concrete channel vector: the
out-of-range roll request 5 is clamped into `[1000, 2000]`. -/
theorem C7_rc_override_roundtrip_witness :
    RC_MIN ≤ clampRC 5 ∧ clampRC 5 ≤ RC_MAX :=
  (C7_rc_override_roundtrip 5 0 0 0 0 0 0 0).2.2.2.1 (clampRC 5)
    (by simp [rc_channels])

theorem crc8_step_lt (c : ℕ) :
    (if c &&& 0x80 ≠ 0 then ((c <<< 1) ^^^ 0xD5) &&& 0xFF
     else (c <<< 1) &&& 0xFF) < 256 := by
  split <;> exact lt_of_le_of_lt Nat.and_le_right (by norm_num)

theorem crc8_rounds_lt (n c : ℕ) : crc8_byte.rounds c (n + 1) < 256 := by
  induction n generalizing c with
  | zero => rw [crc8_byte.rounds, crc8_byte.rounds]; exact crc8_step_lt c
  | succ k ih => rw [crc8_byte.rounds]; exact ih _

theorem crc8_byte_lt (c byte : ℕ) : crc8_byte c byte < 256 :=
  crc8_rounds_lt 7 (c ^^^ byte)

theorem crc8_foldl_lt (data : List ℕ) (c : ℕ) (hc : c < 256) :
    data.foldl crc8_byte c < 256 := by
  induction data generalizing c with
  | nil => exact hc
  | cons x xs ih => exact ih _ (crc8_byte_lt c x)

theorem crc8_lt (data : List ℕ) : crc8_dvb_s2 data < 256 :=
  crc8_foldl_lt data 0 (by norm_num)

set_option maxRecDepth 8192 in
theorem crc8_check_value :
    crc8_dvb_s2 [0x31, 0x32, 0x33, 0x34, 0x35, 0x36, 0x37, 0x38, 0x39]
      = 0xBC := by
  decide

/-- C8: the CRC-8 (polynomial 0xD5, DVB-S2) checksum is a deterministic
pure function producing an 8-bit result that matches the standard
CRC-8/DVB-S2 check value 0xBC on the reference input "123456789", and in
every built MSP v2 frame the final checksum byte is computed over exactly
the flag, function-id, length and payload bytes — the frame minus its
three leading marker bytes and minus the checksum byte itself. -/
theorem C8_crc8_frame_coverage (function : ℕ) (payload : List ℕ)
    (a b : List ℕ) :
    (a = b → crc8_dvb_s2 a = crc8_dvb_s2 b) ∧
    crc8_dvb_s2 (frame_crc_data function payload) < 256 ∧
    crc8_dvb_s2 [0x31, 0x32, 0x33, 0x34, 0x35, 0x36, 0x37, 0x38, 0x39]
      = 0xBC ∧
    ((build_msp_v2_frame function payload).drop 3).dropLast =
      [0x00] ++ pack16 function ++ pack16 payload.length ++ payload ∧
    (build_msp_v2_frame function payload).getLast? =
      some (crc8_dvb_s2
        (((build_msp_v2_frame function payload).drop 3).dropLast)) := by
  have hdata : ((build_msp_v2_frame function payload).drop 3).dropLast =
      frame_crc_data function payload := by
    simp [build_msp_v2_frame, List.drop_succ_cons]
  refine ⟨fun h => by rw [h], crc8_lt _, crc8_check_value, ?_, ?_⟩
  · rw [hdata]; rfl
  · rw [hdata, build_msp_v2_frame, List.getLast?_concat]

/-- Witness for C8 at the RC-override function id with an empty payload:
determinism instantiated on equal concrete byte lists, and the 8-bit
range of the frame checksum. -/
theorem C8_crc8_frame_coverage_witness :
    crc8_dvb_s2 [0x00, 0xC8, 0x00, 0x00, 0x00] =
      crc8_dvb_s2 [0x00, 0xC8, 0x00, 0x00, 0x00] ∧
    crc8_dvb_s2 (frame_crc_data 200 []) < 256 :=
  ⟨(C8_crc8_frame_coverage 200 [] [0x00, 0xC8, 0x00, 0x00, 0x00]
      [0x00, 0xC8, 0x00, 0x00, 0x00]).1 rfl,
   (C8_crc8_frame_coverage 200 [] [] []).2.1⟩

/-- C1 counterexample: at an altitude exactly equal to
`PRECISION_START_HEIGHT` the control loop commands descent rate
`-MAX_DESCENT_SPEED/2 = -1/8`, not the 0 the claim asserts. -/
theorem C1_counterexample :
    control_throttle SystemState.APPROACH true PRECISION_START_HEIGHT
      = -(1/8) ∧ (-(1/8) : ℚ) ≠ 0 := by
  constructor
  · norm_num [control_throttle, throttle_schedule, PRECISION_START_HEIGHT,
      LANDING_THRESHOLD_HEIGHT, MAX_DESCENT_SPEED]
  · norm_num

theorem throttle_mid_band (alt : ℚ) (h1 : LANDING_THRESHOLD_HEIGHT < alt)
    (h2 : alt ≤ PRECISION_START_HEIGHT) :
    throttle_schedule alt = -(1/4) + alt * (1/120) := by
  rw [throttle_schedule,
    if_neg (not_lt.mpr (by simpa [PRECISION_START_HEIGHT] using h2)),
    if_pos (by simpa [LANDING_THRESHOLD_HEIGHT] using h1)]
  simp only [MAX_DESCENT_SPEED, PRECISION_START_HEIGHT]
  ring

/-- C1 amended: the commanded throttle (identical in `TRACKING` and
`APPROACH` with the beacon detected) is zero strictly above
`PRECISION_START_HEIGHT`; between the landing threshold (exclusive) and
the precision-start height (inclusive) it is the linear function
`-MAX_DESCENT_SPEED * (1 - alt/(2*PRECISION_START_HEIGHT))`, which equals
half the maximum descent rate at the precision-start height and grows in
magnitude (monotonically) as altitude decreases, staying strictly inside
the maximum rate — it does not interpolate down to the minimum rate; at
or below the landing threshold it is pinned to `-MIN_DESCENT_SPEED`. -/
theorem C1_throttle_schedule (alt : ℚ) :
    control_throttle SystemState.TRACKING true alt =
      control_throttle SystemState.APPROACH true alt ∧
    (PRECISION_START_HEIGHT < alt →
      control_throttle SystemState.APPROACH true alt = 0) ∧
    (LANDING_THRESHOLD_HEIGHT < alt → alt ≤ PRECISION_START_HEIGHT →
      control_throttle SystemState.APPROACH true alt =
        -MAX_DESCENT_SPEED * (1 - alt / (2 * PRECISION_START_HEIGHT)) ∧
      -MAX_DESCENT_SPEED < control_throttle SystemState.APPROACH true alt ∧
      control_throttle SystemState.APPROACH true alt
        ≤ -MAX_DESCENT_SPEED / 2) ∧
    (alt ≤ LANDING_THRESHOLD_HEIGHT →
      control_throttle SystemState.APPROACH true alt = -MIN_DESCENT_SPEED) ∧
    (∀ alt2 : ℚ, LANDING_THRESHOLD_HEIGHT < alt → alt ≤ alt2 →
      alt2 ≤ PRECISION_START_HEIGHT →
      control_throttle SystemState.APPROACH true alt ≤
        control_throttle SystemState.APPROACH true alt2) := by
  have hct : ∀ a : ℚ, control_throttle SystemState.APPROACH true a =
      throttle_schedule a := by
    intro a; simp [control_throttle]
  have hct2 : ∀ a : ℚ, control_throttle SystemState.TRACKING true a =
      throttle_schedule a := by
    intro a; simp [control_throttle]
  have hLT : LANDING_THRESHOLD_HEIGHT = (4/5 : ℚ) := rfl
  have hPS : PRECISION_START_HEIGHT = (15 : ℚ) := rfl
  refine ⟨by rw [hct, hct2], fun h => ?_, fun h1 h2 => ?_, fun h => ?_,
    fun alt2 h1 h12 h2 => ?_⟩
  · rw [hct, throttle_schedule, if_pos h]
  · have hv := throttle_mid_band alt h1 h2
    rw [hLT] at h1
    rw [hPS] at h2
    refine ⟨?_, ?_, ?_⟩
    · rw [hct, hv]
      simp only [MAX_DESCENT_SPEED, PRECISION_START_HEIGHT]
      ring
    · rw [hct, hv, MAX_DESCENT_SPEED]; linarith
    · rw [hct, hv, MAX_DESCENT_SPEED]; linarith
  · rw [hct, throttle_schedule,
      if_neg (not_lt.mpr (by rw [hLT] at h; rw [hPS]; linarith)),
      if_neg (not_lt.mpr h)]
  · have hb1 := throttle_mid_band alt h1 (le_trans h12 h2)
    have hb2 := throttle_mid_band alt2 (lt_of_lt_of_le h1 h12) h2
    rw [hct, hct, hb1, hb2]
    linarith

/-- Witness for C1's amended schedule at altitude 10: the commanded
descent rate equals the code's linear formula. -/
theorem C1_throttle_schedule_witness :
    control_throttle SystemState.APPROACH true 10 =
      -MAX_DESCENT_SPEED * (1 - 10 / (2 * PRECISION_START_HEIGHT)) :=
  ((C1_throttle_schedule 10).2.2.1
    (by norm_num [LANDING_THRESHOLD_HEIGHT])
    (by norm_num [PRECISION_START_HEIGHT])).1

theorem computeStep_integral (s : PIDState) (inp : ℚ × Option ℚ × ℚ) :
    (computeStep s inp).integral =
      if s.ki ≠ 0 then
        clamp (s.integral + (if s.reverse then -inp.1 else inp.1) *
          pid_dt s inp.2.2) (-s.integral_max) s.integral_max
      else s.integral := rfl

theorem integral_step_bound (s : PIDState) (inp : ℚ × Option ℚ × ℚ)
    (h0 : 0 ≤ s.integral_max) (h : |s.integral| ≤ s.integral_max) :
    |(computeStep s inp).integral| ≤ s.integral_max := by
  rw [computeStep_integral]
  split
  · rw [clamp]
    refine abs_le.mpr ⟨le_max_left _ _, max_le (by linarith)
      (min_le_left _ _)⟩
  · exact h

theorem runPID_integral_max (inputs : List (ℚ × Option ℚ × ℚ))
    (s : PIDState) : (runPID s inputs).integral_max = s.integral_max := by
  induction inputs generalizing s with
  | nil => rfl
  | cons i is ih =>
      show (runPID (computeStep s i) is).integral_max = _
      rw [ih, computeStep_integral_max]

theorem runPID_ki (inputs : List (ℚ × Option ℚ × ℚ)) (s : PIDState) :
    (runPID s inputs).ki = s.ki := by
  induction inputs generalizing s with
  | nil => rfl
  | cons i is ih =>
      show (runPID (computeStep s i) is).ki = _
      rw [ih, computeStep_ki]

theorem runPID_integral_bound (inputs : List (ℚ × Option ℚ × ℚ))
    (s : PIDState) (h0 : 0 ≤ s.integral_max)
    (h : |s.integral| ≤ s.integral_max) :
    |(runPID s inputs).integral| ≤ s.integral_max := by
  induction inputs generalizing s with
  | nil => exact h
  | cons i is ih =>
      show |(runPID (computeStep s i) is).integral| ≤ _
      have h0' : 0 ≤ (computeStep s i).integral_max := by
        rw [computeStep_integral_max]; exact h0
      have h' : |(computeStep s i).integral| ≤
          (computeStep s i).integral_max := by
        rw [computeStep_integral_max]
        exact integral_step_bound s i h0 h
      have := ih (computeStep s i) h0' h'
      rwa [computeStep_integral_max] at this

/-- C2 counterexample: a controller configured with `Ki = 2` and
`integral_max = 1/2` produces, after a single large-error compute call, an
integral contribution `Ki * integral = 1` that exceeds the configured
anti-windup bound `1/2`: the code clamps the accumulator, not the
contribution `Ki * integral`. -/
theorem C2_counterexample :
    (mkPID 0 2 0 (-10) 10 (some (1/2)) none false).integral_max = 1/2 ∧
    (mkPID 0 2 0 (-10) 10 (some (1/2)) none false).ki *
      ((compute (mkPID 0 2 0 (-10) 10 (some (1/2)) none false)
        100 none 0).2).integral = 1 ∧
    ¬ |(mkPID 0 2 0 (-10) 10 (some (1/2)) none false).ki *
        ((compute (mkPID 0 2 0 (-10) 10 (some (1/2)) none false)
          100 none 0).2).integral| ≤
      (mkPID 0 2 0 (-10) 10 (some (1/2)) none false).integral_max := by
  have hs : ((compute (mkPID 0 2 0 (-10) 10 (some (1/2)) none false)
      100 none 0).2).integral = 1/2 := by
    rw [show (compute (mkPID 0 2 0 (-10) 10 (some (1/2)) none false)
          100 none 0).2 =
        computeStep (mkPID 0 2 0 (-10) 10 (some (1/2)) none false)
          (100, none, 0) from rfl,
      computeStep_integral]
    norm_num [mkPID, optTruthy, pid_dt, clamp]
  refine ⟨?_, ?_, ?_⟩
  · norm_num [mkPID, optTruthy]
  · rw [hs]; norm_num [mkPID]
  · rw [hs]; norm_num [mkPID, optTruthy]

/-- C2 amended: across every sequence of `compute` calls the integral
accumulator itself stays clamped to `±integral_max` (for a nonnegative
bound), so the integral contribution `Ki * integral` is bounded by
`|Ki| * integral_max` — not by `integral_max` itself; the bound is the
explicitly configured `integral_max` when one is given (nonzero),
independent of `output_max`, and defaults to `|output_max|` otherwise. -/
theorem C2_integral_antiwindup (s : PIDState)
    (inputs : List (ℚ × Option ℚ × ℚ))
    (h0 : 0 ≤ s.integral_max) (h : |s.integral| ≤ s.integral_max) :
    |(runPID s inputs).integral| ≤ s.integral_max ∧
    |(runPID s inputs).ki * (runPID s inputs).integral| ≤
      |s.ki| * s.integral_max ∧
    (∀ kp ki kd omin omax v : ℚ, ∀ stime : Option ℚ, ∀ rev : Bool,
      v ≠ 0 →
      (mkPID kp ki kd omin omax (some v) stime rev).integral_max = v) ∧
    (∀ kp ki kd omin omax : ℚ, ∀ stime : Option ℚ, ∀ rev : Bool,
      (mkPID kp ki kd omin omax none stime rev).integral_max = |omax|) := by
  have hint := runPID_integral_bound inputs s h0 h
  refine ⟨hint, ?_, ?_, ?_⟩
  · rw [runPID_ki, abs_mul]
    exact mul_le_mul_of_nonneg_left hint (abs_nonneg _)
  · intro kp ki kd omin omax v stime rev hv
    simp [mkPID, optTruthy, hv]
  · intro kp ki kd omin omax stime rev
    simp [mkPID, optTruthy]

/-- Witness for C2's amended invariant at a concrete controller
(`Ki = 1`, defaulted `integral_max = 1`) after one compute call. -/
theorem C2_integral_antiwindup_witness :
    |(runPID (mkPID 1 1 0 (-1) 1 none none false) [(5, none, 0)]).integral|
      ≤ (mkPID 1 1 0 (-1) 1 none none false).integral_max :=
  (C2_integral_antiwindup (mkPID 1 1 0 (-1) 1 none none false)
    [(5, none, 0)]
    (by norm_num [mkPID, optTruthy])
    (by norm_num [mkPID, optTruthy])).1

theorem landing_lost_step (s : FSM) (pos : Option (ℤ × ℤ)) (alt now : ℚ)
    (hland : s.state = SystemState.LANDING)
    (hto : s.lost_timeout ≤ now - s.laser_last_seen) :
    (update s false pos alt now).state = SystemState.LOST := by
  by_cases halt : alt ≤ (10 : ℚ)⁻¹ <;>
    simp [update, process_state, change_state, hland, hto, halt, ge_iff_le]

/-- C3 counterexample: in `LANDING`, an update reporting altitude
`0.05 ≤ 0.1` but with the beacon undetected for at least `lost_timeout`
does NOT leave the machine in `COMPLETE`: the second `if` of the
`LANDING` branch immediately moves it on to `LOST`. -/
theorem C3_counterexample :
    ((1 : ℚ)/20 ≤ 1/10) ∧
    (update { mkFSM 2 3 15 (4/5) with state := SystemState.LANDING }
        false none (1/20) 10).state = SystemState.LOST ∧
    (update { mkFSM 2 3 15 (4/5) with state := SystemState.LANDING }
        false none (1/20) 10).state ≠ SystemState.COMPLETE := by
  have h := landing_lost_step
    { mkFSM 2 3 15 (4/5) with state := SystemState.LANDING }
    none (1/20) 10 rfl (by norm_num [mkFSM])
  exact ⟨by norm_num, h,
    by rw [h]; intro hc; exact SystemState.noConfusion hc⟩

/-- C3 amended: in `LANDING`, an update reporting altitude at or below
the touchdown threshold `0.1` ends in `COMPLETE` — unless in that same
call the beacon is undetected and the time since last-seen has reached
`lost_timeout`, in which case the machine passes through `COMPLETE` and
ends the call in `LOST`. -/
theorem C3_touchdown_complete (s : FSM) (detected : Bool)
    (pos : Option (ℤ × ℤ)) (alt now : ℚ)
    (hland : s.state = SystemState.LANDING) (halt : alt ≤ 1/10) :
    (update s detected pos alt now).state =
      if detected = false ∧ s.lost_timeout ≤ now - s.laser_last_seen
      then SystemState.LOST else SystemState.COMPLETE := by
  have halt' : alt ≤ (10 : ℚ)⁻¹ := by rwa [one_div] at halt
  cases detected
  · by_cases hto : s.lost_timeout ≤ now - s.laser_last_seen <;>
      simp [update, process_state, change_state, hland, halt', hto,
        ge_iff_le]
  · by_cases hz : s.laser_first_seen = 0 <;>
      simp [update, process_state, change_state, hland, halt', hz]

/-- Witness for C3's amended statement: a concrete touchdown with the
beacon still detected ends in `COMPLETE`. -/
theorem C3_touchdown_complete_witness :
    (update { mkFSM 2 3 15 (4/5) with state := SystemState.LANDING }
        true (some (1, 1)) (1/20) 10).state = SystemState.COMPLETE := by
  have h := C3_touchdown_complete
    { mkFSM 2 3 15 (4/5) with state := SystemState.LANDING }
    true (some (1, 1)) (1/20) 10 rfl (by norm_num)
  rw [h]
  simp

end Homing
